import Mathlib

/-!
Shallow embedding of `src/src/main.cpp` from the repository
`opengl_1_creating_a_window`: a program that initializes GLFW, creates an
800x600 window, loads the OpenGL function table through GLAD, sets the
viewport, registers a framebuffer-resize callback, and runs a render loop
(input check, clear, swap, poll) until the window is asked to close.

External library calls (GLFW, GLAD, OpenGL) are modelled by an explicit
environment deciding their outcomes and by explicit state records; the
control flow and all constants are translated directly from the source.
-/

namespace CreatingAWindow

/-- Value of the GLFW_KEY_ESCAPE constant from the GLFW header. -/
def GLFW_KEY_ESCAPE : Int := 256

/-- Value of the GLFW_PRESS key-state constant from the GLFW header. -/
def GLFW_PRESS : Int := 1

/-- Value of the GLFW_RELEASE key-state constant from the GLFW header. -/
def GLFW_RELEASE : Int := 0

/-- Value of the GLFW_CONTEXT_VERSION_MAJOR hint id from the GLFW header. -/
def GLFW_CONTEXT_VERSION_MAJOR : Int := 0x00022002

/-- Value of the GLFW_CONTEXT_VERSION_MINOR hint id from the GLFW header. -/
def GLFW_CONTEXT_VERSION_MINOR : Int := 0x00022003

/-- Value of the GLFW_OPENGL_PROFILE hint id from the GLFW header. -/
def GLFW_OPENGL_PROFILE : Int := 0x00022008

/-- Value of the GLFW_OPENGL_CORE_PROFILE hint value from the GLFW header. -/
def GLFW_OPENGL_CORE_PROFILE : Int := 0x00032001

/-- Value of the GLFW_OPENGL_FORWARD_COMPAT hint id from the GLFW header. -/
def GLFW_OPENGL_FORWARD_COMPAT : Int := 0x00022006

/-- Value of the GL_TRUE constant from the OpenGL header. -/
def GL_TRUE : Int := 1

/-- Value of the GL_COLOR_BUFFER_BIT mask from the OpenGL header. -/
def GL_COLOR_BUFFER_BIT : Nat := 0x00004000

/-- Value of the GL_DEPTH_BUFFER_BIT mask from the OpenGL header. -/
def GL_DEPTH_BUFFER_BIT : Nat := 0x00000100

/-- Viewport rectangle as set by glViewport: lower-left origin and extent. -/
structure Viewport where
  x : Int
  y : Int
  width : Int
  height : Int
deriving DecidableEq, Repr

/-- OpenGL context state touched by the program: the viewport set by
glViewport (none before the first call) and the clear color set by
glClearColor (none before the first call). -/
structure GLState where
  viewport : Option Viewport
  clearColor : Option (Rat × Rat × Rat × Rat)
deriving DecidableEq

/-- GLFW window state touched by the program: the should-close flag and the
current framebuffer (drawable) size in pixels. -/
structure WinState where
  shouldClose : Bool
  fbWidth : Int
  fbHeight : Int
deriving DecidableEq

/-- Combined system state: the one window and the OpenGL context state. -/
structure Sys where
  win : WinState
  gl : GLState
deriving DecidableEq

/-- Model of glViewport: records the given rectangle as the viewport. -/
def glViewport (g : GLState) (x y width height : Int) : GLState :=
  { g with viewport := some ⟨x, y, width, height⟩ }

/-- Model of glfwSetWindowShouldClose: sets the should-close flag. -/
def glfwSetWindowShouldClose (w : WinState) (value : Bool) : WinState :=
  { w with shouldClose := value }

/-- Resize event delivered by the windowing library during event polling,
carrying the new framebuffer width and height in pixels. -/
structure ResizeEvent where
  width : Int
  height : Int
deriving DecidableEq

/-- Input to one render-loop iteration: whether the Escape key is currently
pressed during the processInput call, the resize events delivered by
glfwPollEvents, and whether the OS or window manager requests a close
during glfwPollEvents. -/
structure FrameInput where
  escPressed : Bool
  resizes : List ResizeEvent
  osClose : Bool
deriving DecidableEq

/-- Model of glfwGetKey for the one key the program queries: returns
GLFW_PRESS when the Escape key is currently pressed, GLFW_RELEASE
otherwise. -/
def glfwGetKey (i : FrameInput) (key : Int) : Int :=
  if key = GLFW_KEY_ESCAPE ∧ i.escPressed then GLFW_PRESS else GLFW_RELEASE

/-- Translation of processInput (main.cpp lines 139-145): if glfwGetKey
reports the Escape key as pressed, call glfwSetWindowShouldClose with
true; otherwise do nothing. -/
def processInput (i : FrameInput) (w : WinState) : WinState :=
  if glfwGetKey i GLFW_KEY_ESCAPE = GLFW_PRESS then
    glfwSetWindowShouldClose w true
  else
    w

/-- Translation of framebuffer_size_callback (main.cpp lines 132-134):
calls glViewport with origin (0, 0) and the supplied width and height. -/
def framebuffer_size_callback (g : GLState) (width height : Int) : GLState :=
  glViewport g 0 0 width height

/-- Processing of one resize event inside glfwPollEvents: the window
framebuffer size changes and the registered framebuffer-size callback is
invoked with the new dimensions. -/
def applyResize (s : Sys) (e : ResizeEvent) : Sys :=
  { win := { s.win with fbWidth := e.width, fbHeight := e.height },
    gl := framebuffer_size_callback s.gl e.width e.height }

/-- Model of glfwPollEvents: delivers the pending resize events (each one
firing the registered callback), then sets the should-close flag if the
OS or window manager requested a close. -/
def glfwPollEvents (i : FrameInput) (s : Sys) : Sys :=
  let s1 := i.resizes.foldl applyResize s
  if i.osClose then { s1 with win := glfwSetWindowShouldClose s1.win true }
  else s1

/-- Observable effect issued by one render-loop iteration, in program
order. -/
inductive LoopEffect where
  | getKey (key result : Int)
  | setWindowShouldClose (value : Bool)
  | glClearColor (r g b a : Rat)
  | glClear (mask : Nat)
  | swapBuffers
  | pollEvents
deriving DecidableEq

/-- Effect trace of one iteration of the render loop (main.cpp lines
89-123): the processInput key query (with the set of the should-close flag
when Escape is pressed), then glClearColor(0.5, 0.2, 0.3, 1.0), then
glClear of the color and depth buffers, then glfwSwapBuffers, then
glfwPollEvents. -/
def frameTrace (i : FrameInput) : List LoopEffect :=
  (if i.escPressed then
    [LoopEffect.getKey GLFW_KEY_ESCAPE GLFW_PRESS,
     LoopEffect.setWindowShouldClose true]
  else
    [LoopEffect.getKey GLFW_KEY_ESCAPE GLFW_RELEASE]) ++
  [LoopEffect.glClearColor 0.5 0.2 0.3 1.0,
   LoopEffect.glClear (GL_COLOR_BUFFER_BIT ||| GL_DEPTH_BUFFER_BIT),
   LoopEffect.swapBuffers,
   LoopEffect.pollEvents]

/-- State transformation of one iteration of the render loop (main.cpp
lines 89-123): processInput, glClearColor (state set), glClear and
glfwSwapBuffers (no modelled state change), then glfwPollEvents. -/
def frameBody (i : FrameInput) (s : Sys) : Sys :=
  let w1 := processInput i s.win
  let gl1 := { s.gl with clearColor := some (0.5, 0.2, 0.3, 1.0) }
  glfwPollEvents i { win := w1, gl := gl1 }

/-- Result of running the render loop on a finite schedule of iteration
inputs: the final state, the number of iteration bodies executed, and the
concatenated effect trace. -/
structure LoopResult where
  final : Sys
  iterations : Nat
  trace : List LoopEffect
deriving DecidableEq

/-- Translation of the while loop (main.cpp lines 89-123): while
glfwWindowShouldClose is false, execute the loop body, consuming one
iteration input per body; the modelled run stops when the schedule of
inputs is exhausted. -/
def runLoop : List FrameInput → Sys → LoopResult
  | [], s => ⟨s, 0, []⟩
  | i :: rest, s =>
    if s.win.shouldClose then ⟨s, 0, []⟩
    else
      let r := runLoop rest (frameBody i s)
      ⟨r.final, r.iterations + 1, frameTrace i ++ r.trace⟩

/-- Environment deciding the outcome of the fallible library calls:
the return value of glfwInit (the program ignores it), whether
glfwCreateWindow returns a non-null handle, and whether gladLoadGLLoader
succeeds. -/
structure Env where
  glfwInitResult : Bool
  createWindowSucceeds : Bool
  gladLoadSucceeds : Bool
deriving DecidableEq

/-- Library call made during startup, recorded in program order. -/
inductive BootCall where
  | glfwInit
  | glfwWindowHint (target value : Int)
  | glfwCreateWindow (width height : Int) (title : String)
  | printLine (s : String)
  | glfwTerminate
  | glfwMakeContextCurrent
  | gladLoadGLLoader
  | glViewportCall (x y width height : Int)
  | glfwSetFramebufferSizeCallback
deriving DecidableEq

/-- Startup calls up to and including glfwCreateWindow (main.cpp lines
29-46): glfwInit, the four window hints, and the window creation with the
800x600 size and the fixed title. These happen unconditionally; the
return value of glfwInit is never read. -/
def bootCallsPrefix : List BootCall :=
  [BootCall.glfwInit,
   BootCall.glfwWindowHint GLFW_CONTEXT_VERSION_MAJOR 3,
   BootCall.glfwWindowHint GLFW_CONTEXT_VERSION_MINOR 3,
   BootCall.glfwWindowHint GLFW_OPENGL_PROFILE GLFW_OPENGL_CORE_PROFILE,
   BootCall.glfwWindowHint GLFW_OPENGL_FORWARD_COMPAT GL_TRUE,
   BootCall.glfwCreateWindow 800 600 "OpenGL Window"]

/-- System state at render-loop entry after a fully successful startup:
the window is 800x600 with the should-close flag clear, the viewport has
been set by glViewport(0, 0, width, height) with width = 800 and
height = 600 (main.cpp line 67), and no clear color has been set yet. -/
def initSys : Sys :=
  { win := { shouldClose := false, fbWidth := 800, fbHeight := 600 },
    gl := { viewport := some ⟨0, 0, 800, 600⟩, clearColor := none } }

/-- Context Bootstrapper outcome (main.cpp lines 29-81): none when
glfwCreateWindow returns null or gladLoadGLLoader fails, otherwise the
state at render-loop entry. -/
def bootstrap (env : Env) : Option Sys :=
  if env.createWindowSucceeds then
    if env.gladLoadSucceeds then some initSys else none
  else none

/-- Observable result of one process run: the exit code of main, the lines
printed to standard output, the number of glfwTerminate calls, the startup
call trace, the number of render-loop iterations executed, and the final
system state when the render loop was reached. -/
structure RunResult where
  exitCode : Int
  output : List String
  terminateCalls : Nat
  bootCalls : List BootCall
  iterations : Nat
  finalSys : Option Sys
deriving DecidableEq

/-- Translation of main (main.cpp lines 26-129): startup calls in program
order; on null window print "Window Creation Failed", call glfwTerminate
and return -1; on GLAD failure print "Failed to initialized GLAD" and
return -1 with no glfwTerminate; otherwise set the viewport, register the
callback, run the render loop, call glfwTerminate once and return 0. -/
def mainProg (env : Env) (inputs : List FrameInput) : RunResult :=
  if env.createWindowSucceeds = false then
    { exitCode := -1,
      output := ["Window Creation Failed"],
      terminateCalls := 1,
      bootCalls := bootCallsPrefix ++
        [BootCall.printLine "Window Creation Failed", BootCall.glfwTerminate],
      iterations := 0,
      finalSys := none }
  else if env.gladLoadSucceeds = false then
    { exitCode := -1,
      output := ["Failed to initialized GLAD"],
      terminateCalls := 0,
      bootCalls := bootCallsPrefix ++
        [BootCall.glfwMakeContextCurrent, BootCall.gladLoadGLLoader,
         BootCall.printLine "Failed to initialized GLAD"],
      iterations := 0,
      finalSys := none }
  else
    let r := runLoop inputs initSys
    { exitCode := 0,
      output := [],
      terminateCalls := 1,
      bootCalls := bootCallsPrefix ++
        [BootCall.glfwMakeContextCurrent, BootCall.gladLoadGLLoader,
         BootCall.glViewportCall 0 0 800 600,
         BootCall.glfwSetFramebufferSizeCallback],
      iterations := r.iterations,
      finalSys := some r.final }

end CreatingAWindow

namespace CreatingAWindow

/-! ### Helper lemmas -/

/-- processInput never clears the should-close flag: if it is already set,
it stays set. -/
theorem processInput_shouldClose_mono (i : FrameInput) (w : WinState)
    (h : w.shouldClose = true) : (processInput i w).shouldClose = true := by
  unfold processInput glfwSetWindowShouldClose
  split
  · rfl
  · exact h

/-- Delivering resize events never changes the should-close flag. -/
theorem foldl_applyResize_shouldClose (es : List ResizeEvent) (s : Sys) :
    (es.foldl applyResize s).win.shouldClose = s.win.shouldClose := by
  induction es generalizing s with
  | nil => rfl
  | cons e rest ih =>
    rw [List.foldl_cons, ih]
    rfl

/-- glfwPollEvents never clears the should-close flag: if it is already
set, it stays set. -/
theorem glfwPollEvents_shouldClose_mono (i : FrameInput) (s : Sys)
    (h : s.win.shouldClose = true) : (glfwPollEvents i s).win.shouldClose = true := by
  unfold glfwPollEvents
  by_cases hc : i.osClose
  · simp [hc, glfwSetWindowShouldClose]
  · simp [hc, foldl_applyResize_shouldClose, h]

/-- One render-loop body never clears the should-close flag: if it is
already set, it stays set. -/
theorem frameBody_shouldClose_mono (i : FrameInput) (s : Sys)
    (h : s.win.shouldClose = true) : (frameBody i s).win.shouldClose = true := by
  unfold frameBody
  exact glfwPollEvents_shouldClose_mono i _ (processInput_shouldClose_mono i s.win h)

/-- Once the should-close flag is set, the render loop executes no body at
all: it returns immediately with zero iterations and an empty trace. -/
theorem runLoop_closed (inputs : List FrameInput) (s : Sys)
    (h : s.win.shouldClose = true) : runLoop inputs s = ⟨s, 0, []⟩ := by
  cases inputs with
  | nil => rfl
  | cons i rest => simp [runLoop, h]

end CreatingAWindow

namespace CreatingAWindow

/-! ### Claim theorems -/

/-- C3: for every resize event with width w and height h (w, h ≥ 0), after
the Viewport Synchronizer runs the viewport is exactly (0, 0, w, h);
invoking it twice with the same (w, h) leaves the viewport unchanged; and
after any processed resize event the viewport extent equals the window
current drawable size. -/
theorem viewport_synchronizer_exact_idempotent (w h : Int)
    (hw : 0 ≤ w) (hh : 0 ≤ h) (g : GLState) :
    (framebuffer_size_callback g w h).viewport = some ⟨0, 0, w, h⟩ ∧
    framebuffer_size_callback (framebuffer_size_callback g w h) w h =
      framebuffer_size_callback g w h ∧
    (∀ s : Sys, (applyResize s ⟨w, h⟩).gl.viewport =
      some ⟨0, 0, (applyResize s ⟨w, h⟩).win.fbWidth,
        (applyResize s ⟨w, h⟩).win.fbHeight⟩) :=
  ⟨rfl, rfl, fun _ => rfl⟩

/-- Witness for C3 at the concrete resize (640, 480) from the empty GL
state. -/
theorem viewport_synchronizer_exact_idempotent_witness :
    (framebuffer_size_callback ⟨none, none⟩ 640 480).viewport =
      some ⟨0, 0, 640, 480⟩ :=
  (viewport_synchronizer_exact_idempotent 640 480 (by decide) (by decide)
    ⟨none, none⟩).1

/-- C4: whenever the Context Bootstrapper succeeds (window created and
function table loaded), the state at Frame Loop entry has viewport origin
(0, 0) and extent (800, 600). -/
theorem bootstrap_viewport_800_600 (env : Env) (s : Sys)
    (h : bootstrap env = some s) :
    s.gl.viewport = some ⟨0, 0, 800, 600⟩ := by
  unfold bootstrap at h
  by_cases h1 : env.createWindowSucceeds <;>
    by_cases h2 : env.gladLoadSucceeds <;> simp [h1, h2] at h
  rw [← h]
  rfl

/-- Witness for C4 at the environment where every library call succeeds. -/
theorem bootstrap_viewport_800_600_witness :
    initSys.gl.viewport = some ⟨0, 0, 800, 600⟩ :=
  bootstrap_viewport_800_600 ⟨true, true, true⟩ initSys rfl

/-- C7: if window/context creation returns a null handle, the process
prints "Window Creation Failed", returns exit code -1, and executes no
Frame Loop iteration. -/
theorem window_creation_failure_exits (env : Env) (inputs : List FrameInput)
    (h : env.createWindowSucceeds = false) :
    (mainProg env inputs).output = ["Window Creation Failed"] ∧
    (mainProg env inputs).exitCode = -1 ∧
    (mainProg env inputs).iterations = 0 := by
  simp [mainProg, h]

/-- Witness for C7 at a concrete environment with a null window handle and
a nonempty input schedule. -/
theorem window_creation_failure_exits_witness :
    (mainProg ⟨true, false, true⟩ [⟨true, [], false⟩]).output =
      ["Window Creation Failed"] ∧
    (mainProg ⟨true, false, true⟩ [⟨true, [], false⟩]).exitCode = -1 ∧
    (mainProg ⟨true, false, true⟩ [⟨true, [], false⟩]).iterations = 0 :=
  window_creation_failure_exits ⟨true, false, true⟩ [⟨true, [], false⟩] rfl

/-- C8: if loading the graphics function table fails, the process prints
"Failed to initialized GLAD", returns exit code -1, and executes no Frame
Loop iteration. -/
theorem glad_load_failure_exits (env : Env) (inputs : List FrameInput)
    (h1 : env.createWindowSucceeds = true) (h2 : env.gladLoadSucceeds = false) :
    (mainProg env inputs).output = ["Failed to initialized GLAD"] ∧
    (mainProg env inputs).exitCode = -1 ∧
    (mainProg env inputs).iterations = 0 := by
  simp [mainProg, h1, h2]

/-- Witness for C8 at a concrete environment with a failing function-table
load and a nonempty input schedule. -/
theorem glad_load_failure_exits_witness :
    (mainProg ⟨true, true, false⟩ [⟨true, [], false⟩]).output =
      ["Failed to initialized GLAD"] ∧
    (mainProg ⟨true, true, false⟩ [⟨true, [], false⟩]).exitCode = -1 ∧
    (mainProg ⟨true, true, false⟩ [⟨true, [], false⟩]).iterations = 0 :=
  glad_load_failure_exits ⟨true, true, false⟩ [⟨true, [], false⟩] rfl rfl

end CreatingAWindow

namespace CreatingAWindow

/-- C1 counterexample: on window-creation failure the program does invoke
library teardown — main.cpp line 50 calls glfwTerminate before returning
-1 — so the claimed absence of teardown on this path is false. -/
theorem failure_teardown_counterexample :
    ¬ ((mainProg ⟨true, false, true⟩ []).terminateCalls = 0) := by decide

/-- C1 (amended): on window/context-creation failure the process prints
exactly one diagnostic line, invokes library teardown once, and terminates
with exit code -1; on graphics function-table load failure it prints
exactly one diagnostic line and returns -1 without any teardown call. -/
theorem failure_exit_diagnostics_amended (env : Env) (inputs : List FrameInput) :
    (env.createWindowSucceeds = false →
      (mainProg env inputs).exitCode = -1 ∧
      (mainProg env inputs).terminateCalls = 1 ∧
      (mainProg env inputs).output = ["Window Creation Failed"]) ∧
    (env.createWindowSucceeds = true → env.gladLoadSucceeds = false →
      (mainProg env inputs).exitCode = -1 ∧
      (mainProg env inputs).terminateCalls = 0 ∧
      (mainProg env inputs).output = ["Failed to initialized GLAD"]) := by
  constructor
  · intro h
    simp [mainProg, h]
  · intro h1 h2
    simp [mainProg, h1, h2]

/-- Witness for the amended C1 at the two concrete failing environments. -/
theorem failure_exit_diagnostics_amended_witness :
    (mainProg ⟨true, false, true⟩ []).terminateCalls = 1 ∧
    (mainProg ⟨true, true, false⟩ []).terminateCalls = 0 :=
  ⟨((failure_exit_diagnostics_amended ⟨true, false, true⟩ []).1 rfl).2.1,
   ((failure_exit_diagnostics_amended ⟨true, true, false⟩ []).2 rfl rfl).2.1⟩

/-- C2 counterexample: in a run where windowing-library initialization
fails, the program still proceeds to set context hints and to call window
creation — the startup trace contains both calls — refuting the claim
that it stops before setting hints or creating the window. -/
theorem init_failure_proceeds_counterexample :
    BootCall.glfwWindowHint GLFW_CONTEXT_VERSION_MAJOR 3 ∈
      (mainProg ⟨false, false, true⟩ []).bootCalls ∧
    BootCall.glfwCreateWindow 800 600 "OpenGL Window" ∈
      (mainProg ⟨false, false, true⟩ []).bootCalls := by decide

/-- C2 (amended): the program never reads the result of windowing-library
initialization; when initialization fails it proceeds to set the context
hints and attempt window creation, and it prints a message and exits with
a nonzero code only when window creation then returns a null handle. -/
theorem init_failure_ignored (wc gl : Bool) (inputs : List FrameInput) :
    (BootCall.glfwWindowHint GLFW_CONTEXT_VERSION_MAJOR 3 ∈
        (mainProg ⟨false, wc, gl⟩ inputs).bootCalls ∧
     BootCall.glfwCreateWindow 800 600 "OpenGL Window" ∈
        (mainProg ⟨false, wc, gl⟩ inputs).bootCalls) ∧
    (wc = false →
      (mainProg ⟨false, wc, gl⟩ inputs).exitCode = -1 ∧
      (mainProg ⟨false, wc, gl⟩ inputs).output = ["Window Creation Failed"]) := by
  cases wc <;> cases gl <;> simp [mainProg, bootCallsPrefix]

/-- Witness for the amended C2 at a concrete environment where
initialization fails and window creation returns null. -/
theorem init_failure_ignored_witness :
    (mainProg ⟨false, false, true⟩ []).exitCode = -1 ∧
    (mainProg ⟨false, false, true⟩ []).output = ["Window Creation Failed"] :=
  (init_failure_ignored false true []).2 rfl

/-- C5: while the close flag is not set, the loop executes one body whose
effect trace is exactly: the Escape key check (setting the close flag when
pressed), then glClearColor(0.5, 0.2, 0.3, 1.0), then glClear of the color
and depth buffers, then the buffer swap, then event polling. -/
theorem frame_loop_iteration_order (i : FrameInput) (rest : List FrameInput)
    (s : Sys) (h : s.win.shouldClose = false) :
    (runLoop (i :: rest) s).trace =
      frameTrace i ++ (runLoop rest (frameBody i s)).trace ∧
    (runLoop (i :: rest) s).iterations =
      (runLoop rest (frameBody i s)).iterations + 1 ∧
    frameTrace i =
      (if i.escPressed then
        [LoopEffect.getKey GLFW_KEY_ESCAPE GLFW_PRESS,
         LoopEffect.setWindowShouldClose true]
      else
        [LoopEffect.getKey GLFW_KEY_ESCAPE GLFW_RELEASE]) ++
      [LoopEffect.glClearColor 0.5 0.2 0.3 1.0,
       LoopEffect.glClear (GL_COLOR_BUFFER_BIT ||| GL_DEPTH_BUFFER_BIT),
       LoopEffect.swapBuffers,
       LoopEffect.pollEvents] := by
  refine ⟨?_, ?_, rfl⟩ <;> simp [runLoop, h]

/-- Witness for C5 at a concrete not-closed state and input. -/
theorem frame_loop_iteration_order_witness :
    (runLoop [⟨true, [], false⟩] initSys).trace =
      frameTrace ⟨true, [], false⟩ ++
        (runLoop [] (frameBody ⟨true, [], false⟩ initSys)).trace :=
  (frame_loop_iteration_order ⟨true, [], false⟩ [] initSys rfl).1

/-- C6: if Escape is pressed during an iteration, the close-requested flag
is set already by the input-check step, it is still set after the full
body, and the loop executes exactly that one body and no further
iteration. -/
theorem escape_stops_loop (i : FrameInput) (rest : List FrameInput) (s : Sys)
    (hrun : s.win.shouldClose = false) (hesc : i.escPressed = true) :
    (processInput i s.win).shouldClose = true ∧
    (frameBody i s).win.shouldClose = true ∧
    (runLoop (i :: rest) s).iterations = 1 := by
  have hpi : (processInput i s.win).shouldClose = true := by
    simp [processInput, glfwGetKey, glfwSetWindowShouldClose, hesc]
  have hb : (frameBody i s).win.shouldClose = true := by
    unfold frameBody
    exact glfwPollEvents_shouldClose_mono i _ hpi
  have h0 := runLoop_closed rest (frameBody i s) hb
  refine ⟨hpi, hb, ?_⟩
  simp [runLoop, hrun, h0]

/-- Witness for C6: Escape pressed on the first of two scheduled
iterations yields exactly one executed body. -/
theorem escape_stops_loop_witness :
    (runLoop [⟨true, [], false⟩, ⟨false, [], false⟩] initSys).iterations = 1 :=
  (escape_stops_loop ⟨true, [], false⟩ [⟨false, [], false⟩] initSys rfl rfl).2.2

/-- C9: every run in which startup succeeds and the close flag ends up set
(close requested via Escape or by the OS) returns exit code 0 and invokes
library teardown exactly once. -/
theorem normal_termination_exit0_teardown_once (env : Env)
    (inputs : List FrameInput) (s : Sys)
    (hw : env.createWindowSucceeds = true) (hg : env.gladLoadSucceeds = true)
    (hfin : (mainProg env inputs).finalSys = some s)
    (hclosed : s.win.shouldClose = true) :
    (mainProg env inputs).exitCode = 0 ∧
    (mainProg env inputs).terminateCalls = 1 := by
  simp [mainProg, hw, hg]

/-- Witness for C9: a run where Escape is pressed in the first iteration
terminates with exit code 0 and one teardown call. -/
theorem normal_termination_exit0_teardown_once_witness :
    (mainProg ⟨true, true, true⟩ [⟨true, [], false⟩]).exitCode = 0 ∧
    (mainProg ⟨true, true, true⟩ [⟨true, [], false⟩]).terminateCalls = 1 :=
  normal_termination_exit0_teardown_once ⟨true, true, true⟩
    [⟨true, [], false⟩]
    ⟨⟨true, 800, 600⟩, ⟨some ⟨0, 0, 800, 600⟩, some (0.5, 0.2, 0.3, 1.0)⟩⟩
    rfl rfl rfl rfl

/-- C10: the input-check step touches only the close flag — it preserves
the framebuffer size, is the identity when Escape is not pressed, and
never clears a set flag — and no loop operation ever resets a set flag:
one body preserves it, and the loop then executes no further body. -/
theorem input_check_minimal_monotone (i : FrameInput) (w : WinState)
    (s : Sys) (inputs : List FrameInput) :
    ((processInput i w).fbWidth = w.fbWidth ∧
     (processInput i w).fbHeight = w.fbHeight) ∧
    (i.escPressed = false → processInput i w = w) ∧
    (w.shouldClose = true → (processInput i w).shouldClose = true) ∧
    (s.win.shouldClose = true → (frameBody i s).win.shouldClose = true) ∧
    (s.win.shouldClose = true →
      (runLoop inputs s).final.win.shouldClose = true) := by
  refine ⟨⟨?_, ?_⟩, ?_, processInput_shouldClose_mono i w,
    frameBody_shouldClose_mono i s, ?_⟩
  · unfold processInput glfwSetWindowShouldClose
    split <;> rfl
  · unfold processInput glfwSetWindowShouldClose
    split <;> rfl
  · intro h
    simp [processInput, glfwGetKey, h, GLFW_PRESS, GLFW_RELEASE]
  · intro h
    rw [runLoop_closed inputs s h]
    exact h

/-- Witness for C10: with Escape not pressed, the input check leaves a
concrete window state unchanged. -/
theorem input_check_minimal_monotone_witness :
    processInput ⟨false, [], false⟩ ⟨false, 800, 600⟩ = ⟨false, 800, 600⟩ :=
  (input_check_minimal_monotone ⟨false, [], false⟩ ⟨false, 800, 600⟩
    initSys []).2.1 rfl

end CreatingAWindow
